import Mathlib

/-!
Verification of the actor-critic training coordination code in
`trax/rl/actor_critic.py`, as a shallow embedding: numpy arrays of rank 2
become `List (List ℝ)`, shapes become `List Nat`, model parameter lists
become `List W`, fatal Python errors become `Except`/`Option` failures.
-/

namespace ActorCritic

/-! ## Coordinator state and `train_epoch` (lines 124-139) -/

/-- The observable phases of one `train_epoch` call, in the order they run. -/
inductive TrainEvent where
  | valueEpoch
  | copyValueToPolicy
  | policyEpoch
  | copyPolicyToValue
deriving DecidableEq, Repr

/-- The two models' parameter-block lists, each block of type `W`. -/
structure ACWeights (W : Type) where
  valueWeights : List W
  policyWeights : List W
deriving DecidableEq, Repr

/-- Python slice assignment `dst[:k] = src[:k]` on parameter-block lists:
the first `k` blocks of `dst` are replaced by the first `k` blocks of `src`. -/
def spliceBlocks {W : Type} (k : Nat) (src dst : List W) : List W :=
  src.take k ++ dst.drop k

/-- Model of `ActorCriticTrainer.train_epoch` (lines 124-139).  The two
training epochs are opaque updates `valueTrain`/`policyTrain` run by the
external supervised trainers.  The call runs: one value epoch; if
`0 < n_shared_layers`, copy the first `n_shared_layers` value blocks into the
policy weights; one policy epoch; if `0 < n_shared_layers`, copy the first
`n_shared_layers` policy blocks back into the value weights (the value
trainer's weights are re-read at that point, unchanged since the first copy).
Returns the final weights together with the ordered trace of phases. -/
def train_epoch {W : Type} (n_shared_layers : Nat)
    (valueTrain policyTrain : List W → List W)
    (s : ACWeights W) : ACWeights W × List TrainEvent :=
  let v1 := valueTrain s.valueWeights
  let p1 := if 0 < n_shared_layers then
      spliceBlocks n_shared_layers v1 s.policyWeights
    else s.policyWeights
  let e1 : List TrainEvent := if 0 < n_shared_layers then
      [TrainEvent.copyValueToPolicy] else []
  let p2 := policyTrain p1
  let v2 := if 0 < n_shared_layers then spliceBlocks n_shared_layers p2 v1 else v1
  let e2 : List TrainEvent := if 0 < n_shared_layers then
      [TrainEvent.copyPolicyToValue] else []
  (ACWeights.mk v2 p2, TrainEvent.valueEpoch :: e1 ++ TrainEvent.policyEpoch :: e2)

/-! ## The value trainer's output directory (lines 57-59)

Paths are modelled as lists of characters. -/

/-- Whether a path ends with the separator character. -/
def endsWithSlash (l : List Char) : Bool :=
  l.getLast? = some '/'

/-- The path with a separator appended unless it already ends with one. -/
def dirSlash (d : List Char) : List Char :=
  if endsWithSlash d then d else d ++ ['/']

/-- POSIX `os.path.join(a, b)` for two components: an absolute second
component discards everything before it. -/
def osPathJoin (a b : List Char) : List Char :=
  if b.head? = some '/' then b
  else if a = [] then b
  else if endsWithSlash a then a ++ b
  else a ++ '/' :: b

/-- The character list of the Python literal `'/value'`. -/
def slashValue : List Char := ['/', 'v', 'a', 'l', 'u', 'e']

/-- Lines 57-59: `value_output_dir = os.path.join(output_dir, '/value')` when
an output directory is configured. -/
def value_output_dir (output_dir : Option (List Char)) : Option (List Char) :=
  output_dir.map (fun d => osPathJoin d slashValue)

/-- `p` lies strictly inside the directory `d`: it extends `d`
(separator-completed) by a nonempty remainder. -/
def isSubdirOf (p d : List Char) : Prop :=
  d ≠ [] ∧ ∃ s : List Char, s ≠ [] ∧ p = dirSlash d ++ s

/-! ## Shape-level model of the two batch streams (lines 78-86 and 103-122) -/

/-- Fatal failures raised while producing a batch. -/
inductive StreamFailure where
  | shapeAssertion
deriving DecidableEq, Repr

/-- numpy `a[:, :, None]` on a rank-2 array: shape `[b, t]` becomes `[b, t, 1]`. -/
def addTrailingSingleton (s : List Nat) : List Nat := s ++ [1]

/-- One element yielded by `value_batches_stream` (lines 78-86), at shape
level: the observations pass through, and an extra depth dimension is added
to the returns and the mask. -/
def value_batches_stream_elt (obsShape returnsShape maskShape : List Nat) :
    List Nat × List Nat × List Nat :=
  (obsShape, addTrailingSingleton returnsShape, addTrailingSingleton maskShape)

/-- Modelled from the spec: `shapes.assert_shape_equals` (module `trax.shapes`,
not under src/) checks that the array's shape equals the given tuple exactly
and fails fatally on any mismatch. -/
def assert_shape_equals (shape expected : List Nat) : Except StreamFailure Unit :=
  if shape = expected then Except.ok () else Except.error StreamFailure.shapeAssertion

/-- numpy `np.squeeze(a, axis=2)` at shape level: defined exactly when the
array has rank 3 and axis 2 has extent 1, in which case that axis is removed. -/
def npSqueezeAxis2 (shape : List Nat) : Option (List Nat) :=
  match shape with
  | [b, t, 1] => some [b, t]
  | _ => none

/-- Lines 115-121 of `policy_batches_stream`: assert that the value model's
output shape is exactly `[policy_batch_size, max_slice_length + 1, 1]`, then
squeeze away the trailing depth axis. -/
def value_estimate_shape (policy_batch_size max_slice_length : Nat)
    (valuesShape : List Nat) : Except StreamFailure (Option (List Nat)) :=
  match assert_shape_equals valuesShape
      [policy_batch_size, max_slice_length + 1, 1] with
  | Except.error e => Except.error e
  | Except.ok _ => Except.ok (npSqueezeAxis2 valuesShape)

/-! ## The base coordinator's policy-input derivation (lines 88-122) -/

/-- What `policy_inputs` hands to the stream: either a derived batch tuple, or
the Python class object `NotImplementedError` itself, used as a value. -/
inductive PolicyInputsResult (α : Type) where
  | batch (x : α)
  | notImplementedErrorClass
deriving DecidableEq, Repr

/-- Lines 88-101: the base `ActorCriticTrainer.policy_inputs` body is
`return NotImplementedError` — it RETURNS the exception class as an ordinary
value instead of raising it. -/
def base_policy_inputs {τ α : Type} (trajectory : τ) (values : List (List ℝ)) :
    PolicyInputsResult α :=
  PolicyInputsResult.notImplementedErrorClass

/-- Lines 115-122: one production step of `policy_batches_stream` given the
value model's output shape: run the shape assertion and squeeze, then yield
whatever the bound `policy_inputs` returns. -/
def policy_stream_step {τ α : Type} (policy_batch_size max_slice_length : Nat)
    (deriver : τ → List (List ℝ) → PolicyInputsResult α)
    (trajectory : τ) (valuesShape : List Nat) (values : List (List ℝ)) :
    Except StreamFailure (PolicyInputsResult α) :=
  match value_estimate_shape policy_batch_size max_slice_length valuesShape with
  | Except.error e => Except.error e
  | Except.ok _ => Except.ok (deriver trajectory values)

/-! ## The trajectory-sampling request made by `policy_batches_stream`
(lines 103-114) -/

/-- The argument tuple of the `trajectory_batch_stream` call. -/
structure BatchStreamRequest where
  batch_size : Nat
  epochs : Option (List Int)
  max_slice_length : Nat
  include_final_state : Bool
  sample_trajectories_uniformly : Bool
deriving DecidableEq, Repr

/-- Lines 105-114: the sampling request issued by `policy_batches_stream`:
`epochs = [-1]` when on-policy and `None` otherwise, slice length one more
than the configured `max_slice_length`, final states included, uniform
sampling over trajectories. -/
def policy_stream_request (on_policy : Bool)
    (policy_batch_size max_slice_length : Nat) : BatchStreamRequest :=
  BatchStreamRequest.mk
    policy_batch_size
    (if on_policy then some [-1] else none)
    (max_slice_length + 1)
    true
    true

/-- Modelled from the spec: the `epochs` filter of
`RLTask.trajectory_batch_stream` (the RLTask implementation is not under
src/).  With `n` stored trajectory generations, `none` draws from the full
retained history; an index list selects the listed generations, negative
indices counting from the most recent end, so `[-1]` selects only the most
recent generation. -/
def selected_epochs (n : Nat) (epochs : Option (List Int)) : List Nat :=
  match epochs with
  | none => List.range n
  | some l => l.filterMap (fun i =>
      if 0 ≤ i ∧ i < (n : Int) then some i.toNat
      else if -(n : Int) ≤ i ∧ i < 0 then some ((n : Int) + i).toNat
      else none)

/-! ## AWR construction kwargs (lines 145-151) -/

/-- Failure modes of the Python call binding. -/
inductive KwargsError where
  | duplicateKeyword
deriving DecidableEq, Repr

/-- Lines 149-151: `super().__init__(task, on_policy=False, **kwargs)`.
Keyword arguments are modelled as an association list (values as `Bool`,
the type of the one keyword the model reads).  A caller-supplied `on_policy`
key collides with the explicit `on_policy=False` binding and raises
`TypeError` (duplicate keyword); otherwise the explicit binding is merged in
front of the caller's kwargs. -/
def awr_super_kwargs (kwargs : List (String × Bool)) :
    Except KwargsError (List (String × Bool)) :=
  if kwargs.any (fun p => p.1 = "on_policy") then
    Except.error KwargsError.duplicateKeyword
  else
    Except.ok (("on_policy", false) :: kwargs)

/-- Lines 35-45: `ActorCriticTrainer.__init__` binds its `on_policy`
parameter from the received keyword bindings, defaulting to `True`. -/
def read_on_policy (kwargs : List (String × Bool)) : Bool :=
  match kwargs.find? (fun p => p.1 = "on_policy") with
  | some p => p.2
  | none => true

/-! ## Rank-2 numpy arrays as lists of rows

The scalar type is kept generic over a linear ordered field (the source works
with floating-point arrays); claim theorems instantiate it at `ℝ`, with
`np.exp` instantiated at `Real.exp`.  Keeping `exp` an explicit argument
keeps every definition computable. -/

variable {K : Type} [LinearOrderedField K]

/-- numpy `m[:, :-1]` on a rank-2 array: drop the last entry of every row. -/
def dropLastCol (m : List (List K)) : List (List K) := m.map List.dropLast

/-- numpy `m[:, 1:]` on a rank-2 array: drop the first entry of every row. -/
def dropFirstCol (m : List (List K)) : List (List K) := m.map (List.drop 1)

/-- Elementwise addition of two rank-2 arrays. -/
def matAdd (a b : List (List K)) : List (List K) :=
  List.zipWith (List.zipWith (fun x y => x + y)) a b

/-- Elementwise subtraction of two rank-2 arrays. -/
def matSub (a b : List (List K)) : List (List K) :=
  List.zipWith (List.zipWith (fun x y => x - y)) a b

/-- Elementwise product of two rank-2 arrays. -/
def matMul (a b : List (List K)) : List (List K) :=
  List.zipWith (List.zipWith (fun x y => x * y)) a b

/-- Elementwise minimum of two rank-2 arrays (numpy `np.min(np.stack ..., 0)`). -/
def matMin (a b : List (List K)) : List (List K) :=
  List.zipWith (List.zipWith min) a b

/-- Scalar times a rank-2 array. -/
def scalarMul (c : K) (a : List (List K)) : List (List K) :=
  a.map (List.map (fun x => c * x))

/-- Elementwise application of a scalar function (used for `np.exp`). -/
def matMap (f : K → K) (a : List (List K)) : List (List K) :=
  a.map (List.map f)

/-- Elementwise division of two rank-2 arrays. -/
def matDiv (a b : List (List K)) : List (List K) :=
  List.zipWith (List.zipWith (fun x y => x / y)) a b

/-- numpy `a.mean()` over all entries of a rank-2 array. -/
def matMean (m : List (List K)) : K :=
  (m.map List.sum).sum / (((m.map List.length).sum : Nat) : K)

/-- The fields of a `TrajectoryNp` batch, each a rank-2 `[batch, time]` array
(observation feature dimensions are irrelevant to the derivers, which only
slice the time axis, so observations are also modelled rank-2). -/
structure TrajectoryNp (K : Type) where
  observations : List (List K)
  actions : List (List K)
  rewards : List (List K)
  returns : List (List K)
  log_probs : List (List K)
  mask : List (List K)

/-! ## `AWRTrainer.policy_inputs` (lines 153-165) -/

/-- Line 156: `td_advantage = rew + gamma * values[:, 1:] - values[:, :-1]`
with `rew = trajectory.rewards[:, :-1]`. -/
def td_advantage (gamma : K) (rewards values : List (List K)) : List (List K) :=
  matAdd (dropLastCol rewards)
    (matSub (scalarMul gamma (dropFirstCol values)) (dropLastCol values))

/-- Line 158: `np.minimum(np.exp(td_advantage / beta), w_max)` elementwise,
with `np.exp` passed in as `exp`. -/
def awr_weights (exp : K → K) (beta w_max : K) (td : List (List K)) :
    List (List K) :=
  matMap (fun t => min (exp (t / beta)) w_max) td

/-- `AWRTrainer.policy_inputs` (lines 153-165): observations and actions with
the last timestep cut, plus the clipped exponential weights. -/
def awr_policy_inputs (exp : K → K) (gamma beta w_max : K)
    (trajectory : TrajectoryNp K) (values : List (List K)) :
    List (List K) × List (List K) × List (List K) :=
  (dropLastCol trajectory.observations,
   dropLastCol trajectory.actions,
   awr_weights exp beta w_max (td_advantage gamma trajectory.rewards values))

/-- Every entry of the matrix lies in the half-open interval `(0, w_max]`. -/
def weights_bounded (w_max : K) (m : List (List K)) : Prop :=
  ∀ row ∈ m, ∀ w ∈ row, 0 < w ∧ w ≤ w_max

/-! ## `AdvantageActorCriticTrainer.policy_inputs` (lines 184-190) -/

/-- `AdvantageActorCriticTrainer.policy_inputs` (lines 184-190): advantages
are `returns[:, :-1] - values[:, :-1]`; observations and actions are passed
through untouched, at their full length. -/
def a2c_policy_inputs (trajectory : TrajectoryNp K) (values : List (List K)) :
    List (List K) × List (List K) × List (List K) :=
  (trajectory.observations,
   trajectory.actions,
   matSub (dropLastCol trajectory.returns) (dropLastCol values))

/-! ## `PPOTrainer` (lines 199-241) -/

/-- The attributes of a `PPOTrainer` object that `ppo_loss` reads.  Python
attribute lookup is modelled with `Option`: `none` means the attribute was
never assigned, so reading it raises `AttributeError`. -/
structure PPOTrainerState (K : Type) where
  ppo_eps : K
  old_log_probs_attr : Option (List (List K))

/-- Lines 205-208: `PPOTrainer.__init__` stores `ppo_eps`.  No statement in
the class ever assigns `self.old_log_probs`, so that attribute is absent. -/
def ppo_init (ppo_eps : K) : PPOTrainerState K :=
  PPOTrainerState.mk ppo_eps none

/-- `jax.lax.clamp(lo, x, hi)`. -/
def clamp (lo x hi : K) : K := min (max x lo) hi

/-- `PPOTrainer.ppo_loss` (lines 224-236), with `np.exp` passed in as `exp`.
The body computes `probs_ratio = np.exp(new_log_probs) /
np.exp(self.old_log_probs)` — it reads the attribute `self.old_log_probs`
(never assigned anywhere), not the `old_log_probs` argument, so the Python
attribute lookup fails with `AttributeError` on every call; the result is
`none` whenever the attribute is absent.  The remaining lines form the
clipped-surrogate objective and return minus its unmasked mean. -/
def ppo_loss (exp : K → K) (self : PPOTrainerState K)
    (new_log_probs advantages old_log_probs : List (List K)) : Option K :=
  match self.old_log_probs_attr with
  | none => none
  | some self_old =>
    let probs_ratio := matDiv (matMap exp new_log_probs) (matMap exp self_old)
    let unclipped_objective := matMul probs_ratio advantages
    let clipped_objective :=
      matMul (matMap (fun r => clamp (1 - self.ppo_eps) r (1 + self.ppo_eps))
        probs_ratio) advantages
    let ppo_objective := matMin unclipped_objective clipped_objective
    some (-(matMean ppo_objective))

/-! ## Concrete sample inputs (spec section 8 end-to-end scenario) -/

/-- The synthetic rewards `[[1,1,1],[0,0,0]]` and placeholder remaining
fields of the spec's end-to-end scenario, batch_size 2, slice length 3 (so
the policy slice has 4 timesteps). -/
def sampleTraj : TrajectoryNp ℚ :=
  TrajectoryNp.mk
    [[10, 11, 12, 13], [20, 21, 22, 23]]
    [[0, 1, 0, 1], [1, 0, 1, 0]]
    [[1, 1, 1], [0, 0, 0]]
    [[3, 2, 1, 0], [0, 0, 0, 0]]
    [[0, 0, 0, 0], [0, 0, 0, 0]]
    [[1, 1, 1, 1], [1, 1, 1, 1]]

/-- The synthetic value estimates `[[0,1,2,3],[5,4,3,2]]` of the spec's
end-to-end scenario. -/
def sampleValues : List (List ℚ) := [[0, 1, 2, 3], [5, 4, 3, 2]]

/-- `sampleTraj` with entries read as reals. -/
def sampleTrajR : TrajectoryNp ℝ :=
  TrajectoryNp.mk
    [[10, 11, 12, 13], [20, 21, 22, 23]]
    [[0, 1, 0, 1], [1, 0, 1, 0]]
    [[1, 1, 1], [0, 0, 0]]
    [[3, 2, 1, 0], [0, 0, 0, 0]]
    [[0, 0, 0, 0], [0, 0, 0, 0]]
    [[1, 1, 1, 1], [1, 1, 1, 1]]

/-- `sampleValues` with entries read as reals. -/
def sampleValuesR : List (List ℝ) := [[0, 1, 2, 3], [5, 4, 3, 2]]

/-! ## Helper lemmas -/

theorem mem_zipWith_decomp {α β γ : Type _} {f : α → β → γ} {l₁ : List α}
    {l₂ : List β} {c : γ} (h : c ∈ List.zipWith f l₁ l₂) :
    ∃ a ∈ l₁, ∃ b ∈ l₂, c = f a b := by
  induction l₁ generalizing l₂ with
  | nil => simp at h
  | cons x xs ih =>
    cases l₂ with
    | nil => simp at h
    | cons y ys =>
      rw [List.zipWith_cons_cons] at h
      rcases List.mem_cons.mp h with h | h
      · exact ⟨x, List.mem_cons_self _ _, y, List.mem_cons_self _ _, h⟩
      · obtain ⟨a, ha, b, hb, hc⟩ := ih h
        exact ⟨a, List.mem_cons_of_mem _ ha, b, List.mem_cons_of_mem _ hb, hc⟩

/-- The separator-completed directory always ends in the separator. -/
theorem dirSlash_concat (d : List Char) : ∃ t, dirSlash d = t ++ ['/'] := by
  unfold dirSlash
  split
  · next h =>
    simp only [endsWithSlash, decide_eq_true_eq] at h
    refine ⟨d.dropLast, ?_⟩
    exact (List.dropLast_append_getLast? '/' (by simp [h, Option.mem_def])).symm
  · exact ⟨d, rfl⟩

/-- The only directory that `/value` lies strictly inside is the root. -/
theorem isSubdirOf_slashValue_eq_root (d : List Char)
    (h : isSubdirOf slashValue d) : d = ['/'] := by
  obtain ⟨hd, s, hs, heq⟩ := h
  obtain ⟨t, ht⟩ := dirSlash_concat d
  rw [ht, List.append_assoc, List.singleton_append] at heq
  have hdir : dirSlash d = ['/'] := by
    rw [ht]
    rcases t with _ | ⟨c, t⟩
    · rfl
    · exfalso
      simp only [slashValue, List.cons_append] at heq
      obtain ⟨hc, hrest⟩ := List.cons.inj heq
      have hm : '/' ∈ t ++ '/' :: s := by simp
      rw [← hrest] at hm
      exact absurd hm (by decide)
  unfold dirSlash at hdir
  split at hdir
  · exact hdir
  · have hlen2 := congrArg List.length hdir
    simp at hlen2
    exact absurd hlen2 hd

/-! ## Claim theorems -/

/-- C1: with `n_shared_layers = k > 0`, `train_epoch` runs, in strict order,
one value epoch, a copy of the first `k` blocks from value to policy, one
policy epoch, and a copy of the first `k` blocks from policy back to value;
afterwards the first `k` parameter blocks of the two models are equal
(provided the policy model has at least `k` blocks). -/
theorem train_epoch_shared_round_trip {W : Type} (k : Nat)
    (valueTrain policyTrain : List W → List W) (s : ACWeights W)
    (hk : 0 < k)
    (hlen : k ≤ (train_epoch k valueTrain policyTrain s).1.policyWeights.length) :
    (train_epoch k valueTrain policyTrain s).2 =
      [TrainEvent.valueEpoch, TrainEvent.copyValueToPolicy,
       TrainEvent.policyEpoch, TrainEvent.copyPolicyToValue] ∧
    (train_epoch k valueTrain policyTrain s).1.valueWeights.take k =
      (train_epoch k valueTrain policyTrain s).1.policyWeights.take k := by
  simp only [train_epoch, if_pos hk] at hlen ⊢
  refine ⟨rfl, ?_⟩
  unfold spliceBlocks
  rw [List.take_append_of_le_length (by simpa using hlen), List.take_take,
    Nat.min_self]

/-- Witness for C1: two layers, one shared, concrete integer weights. -/
theorem train_epoch_shared_round_trip_w :
    (train_epoch 1 (fun l => l.map (fun x => x + 1))
        (fun l => l.map (fun x => x * 2)) (ACWeights.mk [3, 4] [5, 6])).2 =
      [TrainEvent.valueEpoch, TrainEvent.copyValueToPolicy,
       TrainEvent.policyEpoch, TrainEvent.copyPolicyToValue] ∧
    (train_epoch 1 (fun l => l.map (fun x => x + 1))
        (fun l => l.map (fun x => x * 2))
        (ACWeights.mk [3, 4] [5, 6])).1.valueWeights.take 1 =
      (train_epoch 1 (fun l => l.map (fun x => x + 1))
        (fun l => l.map (fun x => x * 2))
        (ACWeights.mk [3, 4] [5, 6])).1.policyWeights.take 1 :=
  train_epoch_shared_round_trip 1 (fun l => l.map (fun x => x + 1))
    (fun l => l.map (fun x => x * 2)) (ACWeights.mk [3, 4] [5, 6])
    (by decide) (by decide)

/-- C10 counterexample: for the configured directory `/`, the computed value
output directory `/value` IS a subdirectory of the configured directory, so
"a subdirectory of the configured directory for no choice of d" fails. -/
theorem value_output_dir_root_cex :
    value_output_dir (some ['/']) = some slashValue ∧
    isSubdirOf slashValue ['/'] := by
  refine ⟨by decide, by decide, ['v', 'a', 'l', 'u', 'e'], by decide, by decide⟩

/-- C10 (amended): `os.path.join(d, '/value')` discards `d` and always yields
the root-level `/value`, which is a subdirectory of the configured directory
for no choice of `d` other than the filesystem root `/`. -/
theorem value_output_dir_discards_base (d : List Char) :
    value_output_dir (some d) = some slashValue ∧
    (isSubdirOf slashValue d → d = ['/']) := by
  constructor
  · have hcond : slashValue.head? = some '/' := rfl
    simp [value_output_dir, osPathJoin, hcond]
  · exact isSubdirOf_slashValue_eq_root d

/-- Witness for C10's amended theorem at the configured directory `/tmp`. -/
theorem value_output_dir_discards_base_w :
    value_output_dir (some ['/', 't', 'm', 'p']) = some slashValue ∧
    (isSubdirOf slashValue ['/', 't', 'm', 'p'] → ['/', 't', 'm', 'p'] = ['/']) :=
  value_output_dir_discards_base ['/', 't', 'm', 'p']

/-- C7: every yielded element of the value batch stream appends a trailing
singleton axis to the returns and the mask, so both end with shape
`observations.shape[:2] + (1,)`, while the observations pass through. -/
theorem value_batches_stream_elt_shapes (obsShape returnsShape maskShape : List Nat)
    (hret : returnsShape = obsShape.take 2) (hmask : maskShape = obsShape.take 2) :
    (value_batches_stream_elt obsShape returnsShape maskShape).2.1 =
      obsShape.take 2 ++ [1] ∧
    (value_batches_stream_elt obsShape returnsShape maskShape).2.2 =
      obsShape.take 2 ++ [1] ∧
    (value_batches_stream_elt obsShape returnsShape maskShape).1 = obsShape := by
  subst hret
  subst hmask
  exact ⟨rfl, rfl, rfl⟩

/-- Witness for C7: batch 64, time 32, observation feature dimension 3. -/
theorem value_batches_stream_elt_shapes_w :
    (value_batches_stream_elt [64, 32, 3] [64, 32] [64, 32]).2.1 =
      [64, 32, 3].take 2 ++ [1] ∧
    (value_batches_stream_elt [64, 32, 3] [64, 32] [64, 32]).2.2 =
      [64, 32, 3].take 2 ++ [1] ∧
    (value_batches_stream_elt [64, 32, 3] [64, 32] [64, 32]).1 = [64, 32, 3] :=
  value_batches_stream_elt_shapes [64, 32, 3] [64, 32] [64, 32] rfl rfl

/-- C3: the value model output must have shape exactly
`[policy_batch_size, L+1, 1]`: any other shape (in particular
`[batch, L+1, 2]`) raises the fatal shape assertion and no batch is
produced, and on the exact shape the squeezed value-estimate shape is
`[batch, L+1]`. -/
theorem value_estimate_shape_spec (b L : Nat) (s : List Nat)
    (hne : s ≠ [b, L + 1, 1]) :
    value_estimate_shape b L s = Except.error StreamFailure.shapeAssertion ∧
    value_estimate_shape b L [b, L + 1, 1] = Except.ok (some [b, L + 1]) ∧
    value_estimate_shape b L [b, L + 1, 2] = Except.error StreamFailure.shapeAssertion := by
  refine ⟨?_, ?_, ?_⟩
  · simp [value_estimate_shape, assert_shape_equals, hne]
  · simp [value_estimate_shape, assert_shape_equals, npSqueezeAxis2]
  · simp [value_estimate_shape, assert_shape_equals]

/-- Witness for C3: batch 2, `L = 3`, rank-1 mismatching shape `[5]`. -/
theorem value_estimate_shape_spec_w :
    value_estimate_shape 2 3 [5] = Except.error StreamFailure.shapeAssertion ∧
    value_estimate_shape 2 3 [2, 3 + 1, 1] = Except.ok (some [2, 3 + 1]) ∧
    value_estimate_shape 2 3 [2, 3 + 1, 2] = Except.error StreamFailure.shapeAssertion :=
  value_estimate_shape_spec 2 3 [5] (by decide)

/-- C5 (code bug evaluation): on the base coordinator, whose `policy_inputs`
body is `return NotImplementedError`, a policy-batch request that passes the
shape assertion succeeds and yields the exception class object as the batch
value — no fatal unimplemented-derivation error is raised. -/
theorem base_policy_stream_yields_class :
    policy_stream_step 2 3 (base_policy_inputs (α := Unit)) () [2, 4, 1]
      [[0, 0, 0, 0], [0, 0, 0, 0]] =
      Except.ok PolicyInputsResult.notImplementedErrorClass := rfl

/-- With at least one stored generation, the epoch filter `[-1]` selects
exactly the most recent generation. -/
theorem selected_epochs_neg_one (n : Nat) (hn : 0 < n) :
    selected_epochs n (some [-1]) = [n - 1] := by
  have h1 : ¬((0:ℤ) ≤ -1 ∧ (-1:ℤ) < (n:ℤ)) := by omega
  have h2 : (-(n:ℤ) ≤ -1 ∧ (-1:ℤ) < 0) := by omega
  simp only [selected_epochs, List.filterMap_cons, List.filterMap_nil,
    if_neg h1, if_pos h2]
  simp only [List.cons.injEq, and_true]
  omega

/-- C8: the policy batch stream samples with slice length `L+1`, final states
included and uniform trajectory sampling; on-policy it restricts to the most
recent generation (`epochs = [-1]`), off-policy it draws from the full
retained history (`epochs = None`). -/
theorem policy_stream_request_spec (on_policy : Bool) (b L n : Nat) (hn : 0 < n) :
    (policy_stream_request on_policy b L).batch_size = b ∧
    (policy_stream_request on_policy b L).max_slice_length = L + 1 ∧
    (policy_stream_request on_policy b L).include_final_state = true ∧
    (policy_stream_request on_policy b L).sample_trajectories_uniformly = true ∧
    (on_policy = true →
      (policy_stream_request on_policy b L).epochs = some [-1] ∧
      selected_epochs n (policy_stream_request on_policy b L).epochs = [n - 1]) ∧
    (on_policy = false →
      (policy_stream_request on_policy b L).epochs = none ∧
      selected_epochs n (policy_stream_request on_policy b L).epochs = List.range n) := by
  refine ⟨rfl, rfl, rfl, rfl, ?_, ?_⟩
  · rintro rfl
    exact ⟨rfl, selected_epochs_neg_one n hn⟩
  · rintro rfl
    exact ⟨rfl, rfl⟩

/-- Witness for C8: on-policy, batch 64, `L = 10`, 3 stored generations. -/
theorem policy_stream_request_spec_w :
    (policy_stream_request true 64 10).batch_size = 64 ∧
    (policy_stream_request true 64 10).max_slice_length = 10 + 1 ∧
    (policy_stream_request true 64 10).include_final_state = true ∧
    (policy_stream_request true 64 10).sample_trajectories_uniformly = true ∧
    (true = true →
      (policy_stream_request true 64 10).epochs = some [-1] ∧
      selected_epochs 3 (policy_stream_request true 64 10).epochs = [3 - 1]) ∧
    (true = false →
      (policy_stream_request true 64 10).epochs = none ∧
      selected_epochs 3 (policy_stream_request true 64 10).epochs = List.range 3) :=
  policy_stream_request_spec true 64 10 3 (by decide)

/-- C9: the AWR constructor passes `on_policy=False` explicitly to the base
constructor, so a caller-supplied `on_policy` keyword collides and raises the
duplicate-keyword `TypeError`; without it the trainer is forced off-policy
and its policy batch stream requests `epochs = None`, sampling from the full
retained history. -/
theorem awr_trainer_always_off_policy (dup_kwargs clean_kwargs : List (String × Bool))
    (b L n : Nat)
    (hdup : dup_kwargs.any (fun p => p.1 = "on_policy") = true)
    (hclean : clean_kwargs.any (fun p => p.1 = "on_policy") = false) :
    awr_super_kwargs dup_kwargs = Except.error KwargsError.duplicateKeyword ∧
    awr_super_kwargs clean_kwargs = Except.ok (("on_policy", false) :: clean_kwargs) ∧
    read_on_policy (("on_policy", false) :: clean_kwargs) = false ∧
    (policy_stream_request (read_on_policy (("on_policy", false) :: clean_kwargs))
        b L).epochs = none ∧
    selected_epochs n (policy_stream_request
        (read_on_policy (("on_policy", false) :: clean_kwargs)) b L).epochs =
      List.range n := by
  refine ⟨by simp [awr_super_kwargs, hdup], by simp [awr_super_kwargs, hclean],
    rfl, rfl, rfl⟩

/-- Witness for C9: a caller passing `on_policy=True` versus a caller passing
no `on_policy` keyword. -/
theorem awr_trainer_always_off_policy_w :
    awr_super_kwargs [("on_policy", true)] = Except.error KwargsError.duplicateKeyword ∧
    awr_super_kwargs [] = Except.ok (("on_policy", false) :: ([] : List (String × Bool))) ∧
    read_on_policy (("on_policy", false) :: ([] : List (String × Bool))) = false ∧
    (policy_stream_request (read_on_policy (("on_policy", false) :: ([] : List (String × Bool))))
        64 10).epochs = none ∧
    selected_epochs 3 (policy_stream_request
        (read_on_policy (("on_policy", false) :: ([] : List (String × Bool)))) 64 10).epochs =
      List.range 3 :=
  awr_trainer_always_off_policy [("on_policy", true)] [] 64 10 3 (by decide) (by decide)

/-- C6: the A2C deriver returns `(observations, actions, advantages)` with
`advantages = returns[:, :-1] - values[:, :-1]` of time length `L`, while
observations and actions pass through untruncated at full length `L+1`. -/
theorem a2c_policy_inputs_spec (trajectory : TrajectoryNp ℝ)
    (values : List (List ℝ)) (L : Nat)
    (hret : ∀ r ∈ trajectory.returns, r.length = L + 1)
    (hval : ∀ r ∈ values, r.length = L + 1)
    (hobs : ∀ r ∈ trajectory.observations, r.length = L + 1) :
    (a2c_policy_inputs trajectory values).1 = trajectory.observations ∧
    (a2c_policy_inputs trajectory values).2.1 = trajectory.actions ∧
    (a2c_policy_inputs trajectory values).2.2 =
      matSub (dropLastCol trajectory.returns) (dropLastCol values) ∧
    (∀ r ∈ (a2c_policy_inputs trajectory values).2.2, r.length = L) ∧
    (∀ r ∈ (a2c_policy_inputs trajectory values).1, r.length = L + 1) := by
  refine ⟨rfl, rfl, rfl, ?_, hobs⟩
  intro r hr
  simp only [a2c_policy_inputs, matSub] at hr
  obtain ⟨ra, hra, rb, hrb, rfl⟩ := mem_zipWith_decomp hr
  simp only [dropLastCol] at hra hrb
  obtain ⟨r0, hr0, rfl⟩ := List.mem_map.mp hra
  obtain ⟨v0, hv0, rfl⟩ := List.mem_map.mp hrb
  simp [hret r0 hr0, hval v0 hv0]

/-- Witness for C6 on the spec's synthetic scenario, `L = 3`. -/
theorem a2c_policy_inputs_spec_w :
    (a2c_policy_inputs sampleTrajR sampleValuesR).1 = sampleTrajR.observations ∧
    (a2c_policy_inputs sampleTrajR sampleValuesR).2.1 = sampleTrajR.actions ∧
    (a2c_policy_inputs sampleTrajR sampleValuesR).2.2 =
      matSub (dropLastCol sampleTrajR.returns) (dropLastCol sampleValuesR) ∧
    (∀ r ∈ (a2c_policy_inputs sampleTrajR sampleValuesR).2.2, r.length = 3) ∧
    (∀ r ∈ (a2c_policy_inputs sampleTrajR sampleValuesR).1, r.length = 3 + 1) :=
  a2c_policy_inputs_spec sampleTrajR sampleValuesR 3
    (by intro r hr; simp [sampleTrajR] at hr; rcases hr with rfl | rfl <;> rfl)
    (by intro r hr; simp [sampleValuesR] at hr; rcases hr with rfl | rfl <;> rfl)
    (by intro r hr; simp [sampleTrajR] at hr; rcases hr with rfl | rfl <;> rfl)

/-- C4: the AWR deriver returns observations and actions cut by one timestep
together with weights `min(exp(td_advantage/beta), w_max)`; with `beta > 0`
and the configured `w_max > 0` every weight lies in `(0, w_max]`; and on the
spec's concrete scenario the row-0 `td_advantage` at `t = 0` is
`1 + 0.99*1 - 0 = 1.99`, giving weight `min(exp 1.99, 20)`. -/
theorem awr_policy_inputs_spec (gamma beta w_max : ℝ)
    (trajectory : TrajectoryNp ℝ) (values : List (List ℝ))
    (hb : 0 < beta) (hw : 0 < w_max) :
    awr_policy_inputs Real.exp gamma beta w_max trajectory values =
      (dropLastCol trajectory.observations, dropLastCol trajectory.actions,
        awr_weights Real.exp beta w_max
          (td_advantage gamma trajectory.rewards values)) ∧
    weights_bounded w_max
      (awr_policy_inputs Real.exp gamma beta w_max trajectory values).2.2 ∧
    ((td_advantage (0.99 : ℝ) sampleTrajR.rewards sampleValuesR).getD 0 []).getD 0 0
      = 1.99 ∧
    ((awr_weights Real.exp (1 : ℝ) 20
        (td_advantage (0.99 : ℝ) sampleTrajR.rewards sampleValuesR)).getD 0 []).getD 0 0
      = min (Real.exp 1.99) 20 := by
  refine ⟨rfl, ?_, ?_, ?_⟩
  · intro row hrow w hmem
    simp only [awr_policy_inputs, awr_weights, matMap] at hrow
    obtain ⟨trow, htrow, rfl⟩ := List.mem_map.mp hrow
    obtain ⟨t, ht, rfl⟩ := List.mem_map.mp hmem
    exact ⟨lt_min (Real.exp_pos _) hw, min_le_right _ _⟩
  · norm_num [td_advantage, matAdd, matSub, scalarMul, dropLastCol,
      dropFirstCol, sampleTrajR, sampleValuesR, List.dropLast]
  · norm_num [awr_weights, matMap, td_advantage, matAdd, matSub, scalarMul,
      dropLastCol, dropFirstCol, sampleTrajR, sampleValuesR, List.dropLast]

/-- Witness for C4 on the spec's synthetic scenario: `gamma = 0.99`,
`beta = 1`, `w_max = 20`. -/
theorem awr_policy_inputs_spec_w :
    awr_policy_inputs Real.exp 0.99 1 20 sampleTrajR sampleValuesR =
      (dropLastCol sampleTrajR.observations, dropLastCol sampleTrajR.actions,
        awr_weights Real.exp 1 20
          (td_advantage 0.99 sampleTrajR.rewards sampleValuesR)) ∧
    weights_bounded 20
      (awr_policy_inputs Real.exp 0.99 1 20 sampleTrajR sampleValuesR).2.2 ∧
    ((td_advantage (0.99 : ℝ) sampleTrajR.rewards sampleValuesR).getD 0 []).getD 0 0
      = 1.99 ∧
    ((awr_weights Real.exp (1 : ℝ) 20
        (td_advantage (0.99 : ℝ) sampleTrajR.rewards sampleValuesR)).getD 0 []).getD 0 0
      = min (Real.exp 1.99) 20 :=
  awr_policy_inputs_spec 0.99 1 20 sampleTrajR sampleValuesR
    (by norm_num) (by norm_num)

/-- C2 (code bug evaluation): `ppo_loss` reads `self.old_log_probs`, an
attribute never assigned on any `PPOTrainer`, so on a freshly constructed
trainer every call fails with `AttributeError`: no loss value is ever
computed, and the `old_log_probs` argument is never used. -/
theorem ppo_loss_always_fails (e : ℝ)
    (new_log_probs advantages old_log_probs : List (List ℝ)) :
    ppo_loss Real.exp (ppo_init e) new_log_probs advantages old_log_probs = none :=
  rfl

end ActorCritic
